import Mathlib

/-!
Verification of `src/hosts/dragon/dynamic_led.py`, a ten-line control loop:

```
while True:
    status = json.loads(subprocess.check_output(['liquidctl', '--match', 'h100i', 'status', '--json']))
    liquid_temp = status[0]['status'][0]['value']
    color = '0080ff' if liquid_temp < 40 else 'ff0000'
    subprocess.run(['liquidctl', '--match', 'h100i', 'set', 'led', 'color', 'fixed', color])
    time.sleep(60)
```

We embed the relevant Python semantics shallowly:
- Python floats are modelled as rationals plus a distinguished NaN
  (`PyFloat`), with the IEEE-754 rule that every comparison involving NaN
  is false; the constants compared against (40) are exactly representable,
  so the ordering behaviour is faithful.
- Parsed JSON documents (the result of `json.loads`) are the inductive
  `Json`; subscripting (`x[0]`, `x['status']`) and the `<` comparison
  follow Python semantics, raising `IndexError` / `KeyError` / `TypeError`
  exactly where CPython does (note that a Python `bool` is an `int`, so
  `True < 40` succeeds and is `True`).
- Exceptions are `Except PyErr`; the outcome of one loop body execution is
  `cycle`, which also records the externally visible events (process
  spawns and the sleep) in order.  `Except.error` means the exception
  propagates out of the loop body, terminating the process; `Except.ok`
  means the loop proceeds to the next iteration.
- The two subprocess calls differ in the source: `subprocess.check_output`
  raises `CalledProcessError` on a nonzero exit status, while
  `subprocess.run` (without `check=True`) returns normally whatever the
  exit status is; both raise `FileNotFoundError` if the utility cannot be
  executed.
-/

namespace DynamicLed

/-- A Python float: either NaN or a (representable) rational value. -/
inductive PyFloat where
  | nan : PyFloat
  | fin : ℚ → PyFloat
deriving DecidableEq

/-- IEEE-754 `<` on Python floats: any comparison involving NaN is false. -/
def PyFloat.lt : PyFloat → PyFloat → Bool
  | PyFloat.fin a, PyFloat.fin b => decide (a < b)
  | _, _ => false

/-- A parsed JSON document, as returned by `json.loads`. -/
inductive Json where
  | null : Json
  | bool : Bool → Json
  | num : PyFloat → Json
  | str : String → Json
  | arr : List Json → Json
  | obj : List (String × Json) → Json

/-- The Python exceptions the loop body can raise. -/
inductive PyErr where
  | calledProcessError : PyErr
  | fileNotFoundError : PyErr
  | jsonDecodeError : PyErr
  | indexError : PyErr
  | keyError : PyErr
  | typeError : PyErr
deriving DecidableEq

/-- Python subscripting `x[i]` with a nonnegative integer index:
lists index or raise `IndexError`; strings yield a one-character string or
raise `IndexError`; dicts raise `KeyError` (JSON object keys are strings,
so an integer key is never present); everything else raises `TypeError`. -/
def pySubscriptNat : Json → Nat → Except PyErr Json
  | Json.arr xs, i =>
      match xs.get? i with
      | some v => Except.ok v
      | none => Except.error PyErr.indexError
  | Json.str s, i =>
      match s.data.get? i with
      | some ch => Except.ok (Json.str (String.mk [ch]))
      | none => Except.error PyErr.indexError
  | Json.obj _, _ => Except.error PyErr.keyError
  | _, _ => Except.error PyErr.typeError

/-- Python subscripting `x['k']` with a string key: dicts look the key up
or raise `KeyError`; everything else raises `TypeError`. -/
def pySubscriptStr : Json → String → Except PyErr Json
  | Json.obj kvs, k =>
      match kvs.lookup k with
      | some v => Except.ok v
      | none => Except.error PyErr.keyError
  | _, _ => Except.error PyErr.typeError

/-- Line 7 of the source: `status[0]['status'][0]['value']`. -/
def liquid_temp (status : Json) : Except PyErr Json := do
  let block ← pySubscriptNat status 0
  let entries ← pySubscriptStr block "status"
  let entry ← pySubscriptNat entries 0
  pySubscriptStr entry "value"

/-- Python `v < n` where `n` is an integer literal: numbers compare by
IEEE-754 `<`; booleans are integers (`False = 0`, `True = 1`); strings,
`None`, lists and dicts raise `TypeError`. -/
def pyLtNum (v : Json) (n : ℚ) : Except PyErr Bool :=
  match v with
  | Json.num t => Except.ok (PyFloat.lt t (PyFloat.fin n))
  | Json.bool b => Except.ok (decide ((if b then (1 : ℚ) else 0) < n))
  | _ => Except.error PyErr.typeError

/-- Line 8 of the source: `'0080ff' if liquid_temp < 40 else 'ff0000'`. -/
def color (t : Json) : Except PyErr String := do
  let b ← pyLtNum t 40
  pure (if b then "0080ff" else "ff0000")

/-- Outcome of the status-query invocation (line 6 composed with
`json.loads`): the utility may fail to execute, exit nonzero (which makes
`check_output` raise), produce unparseable output (which makes
`json.loads` raise), or produce output parsing to a document. -/
inductive QueryResult where
  | execError : QueryResult
  | nonzeroExit : QueryResult
  | unparseable : QueryResult
  | parsed : Json → QueryResult

/-- Outcome of the set-color invocation (line 9): the utility may fail to
execute, or run to completion with some exit status. -/
inductive RunResult where
  | notFound : RunResult
  | exited : Nat → RunResult
deriving DecidableEq

/-- The environment one cycle runs against: what the two external
invocations would do. -/
structure CycleEnv where
  query : QueryResult
  setRun : RunResult

/-- Externally visible events of a cycle, in order. -/
inductive Event where
  | querySpawn : Event
  | setColorSpawn : String → Event
  | sleep : Nat → Event
deriving DecidableEq

/-- One execution of the loop body (lines 6-10).  Returns the exception
outcome (`Except.error e` propagates and terminates the process,
`Except.ok ()` continues the loop) together with the ordered trace of
events that happened. -/
def cycle (env : CycleEnv) : Except PyErr Unit × List Event :=
  match env.query with
  | QueryResult.execError => (Except.error PyErr.fileNotFoundError, [Event.querySpawn])
  | QueryResult.nonzeroExit => (Except.error PyErr.calledProcessError, [Event.querySpawn])
  | QueryResult.unparseable => (Except.error PyErr.jsonDecodeError, [Event.querySpawn])
  | QueryResult.parsed status =>
      match liquid_temp status with
      | Except.error e => (Except.error e, [Event.querySpawn])
      | Except.ok t =>
          match color t with
          | Except.error e => (Except.error e, [Event.querySpawn])
          | Except.ok c =>
              match env.setRun with
              | RunResult.notFound =>
                  (Except.error PyErr.fileNotFoundError,
                    [Event.querySpawn, Event.setColorSpawn c])
              | RunResult.exited _ =>
                  (Except.ok (),
                    [Event.querySpawn, Event.setColorSpawn c, Event.sleep 60])

/-- The `while True` loop, run against a finite prefix of environments:
it consumes environments until one cycle raises, accumulating the trace. -/
def loop : List CycleEnv → Except PyErr Unit × List Event
  | [] => (Except.ok (), [])
  | env :: rest =>
      match cycle env with
      | (Except.ok _, evs) =>
          let r := loop rest
          (r.fst, evs ++ r.snd)
      | (Except.error e, evs) => (Except.error e, evs)

/-- Is a JSON value a number? -/
def Json.isNum : Json → Bool
  | Json.num _ => true
  | _ => false

/-- Can a JSON value be compared against an integer in Python?  Numbers
compare numerically and booleans are integers; everything else raises
`TypeError`. -/
def Json.comparableToNum : Json → Bool
  | Json.num _ => true
  | Json.bool _ => true
  | _ => false

/-- A hexadecimal-lowercase character. -/
def isHexChar (ch : Char) : Bool := ch.isDigit || (decide ('a' ≤ ch) && decide (ch ≤ 'f'))

/-- A well-formed status document: one block, one entry, value 35. -/
def goodDoc : Json :=
  Json.arr [Json.obj [("status", Json.arr [Json.obj [("value", Json.num (PyFloat.fin 35))]])]]

/-- A status document with the same first value 35 but extra fields and
an extra block. -/
def otherDoc : Json :=
  Json.arr
    [Json.obj
      [("status",
        Json.arr [Json.obj [("value", Json.num (PyFloat.fin 35)), ("unit", Json.str "C")],
                  Json.obj [("value", Json.num (PyFloat.fin 99))]]),
       ("device", Json.str "h100i")],
     Json.obj []]

/-- A status document whose first value is the JSON boolean `true`. -/
def boolDoc : Json :=
  Json.arr [Json.obj [("status", Json.arr [Json.obj [("value", Json.bool true)]])]]

/-- A status document whose first value is JSON `null`. -/
def nullDoc : Json :=
  Json.arr [Json.obj [("status", Json.arr [Json.obj [("value", Json.null)]])]]

/-- An environment where the query succeeds with `goodDoc` but the
set-color invocation exits with nonzero status 1. -/
def goodEnvBadSet : CycleEnv :=
  { query := QueryResult.parsed goodDoc, setRun := RunResult.exited 1 }

/-- Reduction of the `Except` bind on a success value. -/
theorem okBind {α β : Type} (a : α) (f : α → Except PyErr β) :
    (do let x ← Except.ok a; f x) = f a := rfl

/-- Reduction of the `Except` bind on an error value. -/
theorem errorBind {α β : Type} (e : PyErr) (f : α → Except PyErr β) :
    (do let x ← (Except.error e : Except PyErr α); f x) = Except.error e := rfl

/-- If `color` succeeds, the produced string is one of the two constants. -/
theorem color_ok_cases (t : Json) (c : String) (h : color t = Except.ok c) :
    c = "0080ff" ∨ c = "ff0000" := by
  cases hb : pyLtNum t 40 with
  | error e => simp [color, hb] at h
  | ok b =>
    simp [color, hb] at h
    cases b with
    | false => exact Or.inr h.symm
    | true => exact Or.inl h.symm

/-- C1: for a finite temperature reading `q`, the decided color is
`0080ff` when `q < 40` and `ff0000` when `40 ≤ q`; in particular the
threshold is inclusive on the RED side. -/
theorem C1_threshold (q : ℚ) :
    (q < 40 → color (Json.num (PyFloat.fin q)) = Except.ok "0080ff") ∧
    (40 ≤ q → color (Json.num (PyFloat.fin q)) = Except.ok "ff0000") := by
  constructor
  · intro h
    simp [color, pyLtNum, PyFloat.lt, h]
  · intro h
    simp [color, pyLtNum, PyFloat.lt, not_lt.mpr h]

/-- C1 witness: a reading of exactly 40.0 yields `ff0000`. -/
theorem C1_threshold_witness :
    color (Json.num (PyFloat.fin 40)) = Except.ok "ff0000" :=
  (C1_threshold 40).2 (le_refl 40)

/-- C9: a NaN reading fails `NaN < 40`, so it falls into the RED branch
and the decided color is `ff0000`. -/
theorem C9_nan_is_red :
    color (Json.num PyFloat.nan) = Except.ok "ff0000" := rfl

/-- C2 counterexample: the set-color invocation exits with status 1
(nonzero), yet the cycle completes normally and the loop runs an entire
further cycle — the failure neither propagates nor terminates the loop,
because `subprocess.run` is called without `check=True`. -/
theorem C2_counterexample :
    goodEnvBadSet.setRun = RunResult.exited 1 ∧
    (cycle goodEnvBadSet).fst = Except.ok () ∧
    (loop [goodEnvBadSet, goodEnvBadSet]).snd =
      [Event.querySpawn, Event.setColorSpawn "0080ff", Event.sleep 60,
       Event.querySpawn, Event.setColorSpawn "0080ff", Event.sleep 60] :=
  ⟨rfl, rfl, rfl⟩

/-- C2 amended: a nonzero exit of the status query raises
`CalledProcessError` and terminates the loop, and a failure to execute
either utility raises `FileNotFoundError` and terminates the loop; but a
nonzero exit of the set-color invocation is not checked: whenever the
set-color process runs to completion, the cycle ends normally whatever
its exit status. -/
theorem C2_failure_propagation (env : CycleEnv) :
    (env.query = QueryResult.nonzeroExit →
      (cycle env).fst = Except.error PyErr.calledProcessError) ∧
    (env.query = QueryResult.execError →
      (cycle env).fst = Except.error PyErr.fileNotFoundError) ∧
    (env.setRun = RunResult.notFound → (cycle env).fst ≠ Except.ok ()) ∧
    (∀ n c, env.setRun = RunResult.exited n →
      Event.setColorSpawn c ∈ (cycle env).snd → (cycle env).fst = Except.ok ()) := by
  obtain ⟨q, s⟩ := env
  cases q with
  | execError => exact ⟨by simp, fun _ => rfl, by simp [cycle], by simp [cycle]⟩
  | nonzeroExit => exact ⟨fun _ => rfl, by simp, by simp [cycle], by simp [cycle]⟩
  | unparseable => exact ⟨by simp, by simp, by simp [cycle], by simp [cycle]⟩
  | parsed st =>
    refine ⟨by simp, by simp, ?_, ?_⟩
    · intro hs
      subst hs
      cases ht : liquid_temp st with
      | error e => simp [cycle, ht]
      | ok t =>
        cases hc : color t with
        | error e => simp [cycle, ht, hc]
        | ok c => simp [cycle, ht, hc]
    · intro n c hs hmem
      subst hs
      cases ht : liquid_temp st with
      | error e => simp [cycle, ht] at hmem
      | ok t =>
        cases hc : color t with
        | error e => simp [cycle, ht, hc] at hmem
        | ok c0 => simp [cycle, ht, hc]

/-- C2 witness: with a nonzero-exit status query, the cycle raises
`CalledProcessError`. -/
theorem C2_failure_propagation_witness :
    (cycle { query := QueryResult.nonzeroExit, setRun := RunResult.exited 0 }).fst =
      Except.error PyErr.calledProcessError :=
  (C2_failure_propagation _).1 rfl

/-- C3: a status document with zero blocks, or whose first block's
`status` field is an empty sequence, makes the extraction raise
`IndexError` (the Malformed-Output failure): the set-color command is not
invoked that cycle and the loop terminates with that error. -/
theorem C3_malformed_output (env : CycleEnv) (doc : Json)
    (hq : env.query = QueryResult.parsed doc)
    (h : doc = Json.arr [] ∨
      ∃ b rest, doc = Json.arr (b :: rest) ∧
        pySubscriptStr b "status" = Except.ok (Json.arr [])) :
    (cycle env).fst = Except.error PyErr.indexError ∧
    (∀ c, Event.setColorSpawn c ∉ (cycle env).snd) ∧
    (∀ rest, (loop (env :: rest)).fst = Except.error PyErr.indexError ∧
      (loop (env :: rest)).snd = [Event.querySpawn]) := by
  have ht : liquid_temp doc = Except.error PyErr.indexError := by
    rcases h with h | ⟨b, rest, hd, hb⟩
    · subst h; rfl
    · subst hd
      simp [liquid_temp, pySubscriptNat, okBind, errorBind, hb]
  have hcy : cycle env = (Except.error PyErr.indexError, [Event.querySpawn]) := by
    simp [cycle, hq, ht]
  refine ⟨by simp [hcy], by simp [hcy], fun rest => by simp [loop, hcy]⟩

/-- C3 witness: the empty status document `[]` raises `IndexError` with no
set-color invocation. -/
theorem C3_malformed_output_witness :
    (cycle { query := QueryResult.parsed (Json.arr []), setRun := RunResult.exited 0 }).fst =
      Except.error PyErr.indexError :=
  (C3_malformed_output _ (Json.arr []) rfl (Or.inl rfl)).1

/-- C4: if the status query exits nonzero or its output is unparseable,
the cycle's trace is just the query spawn — the set-color command is never
invoked that cycle. -/
theorem C4_query_failure_no_set (env : CycleEnv)
    (h : env.query = QueryResult.nonzeroExit ∨ env.query = QueryResult.unparseable) :
    (cycle env).snd = [Event.querySpawn] ∧
    ∀ c, Event.setColorSpawn c ∉ (cycle env).snd := by
  rcases h with h | h <;> simp [cycle, h]

/-- C4 witness at a nonzero-exit query. -/
theorem C4_query_failure_no_set_witness :
    (cycle { query := QueryResult.nonzeroExit, setRun := RunResult.exited 0 }).snd =
      [Event.querySpawn] :=
  (C4_query_failure_no_set _ (Or.inl rfl)).1

/-- C5: the color decision is a pure function of the extracted temperature
value: two cycles (in any runs, with any set-color outcomes) whose
documents extract the same temperature attempt exactly the same set-color
invocations. -/
theorem C5_decision_pure (e1 e2 : CycleEnv) (d1 d2 t : Json)
    (h1 : e1.query = QueryResult.parsed d1) (h2 : e2.query = QueryResult.parsed d2)
    (ht1 : liquid_temp d1 = Except.ok t) (ht2 : liquid_temp d2 = Except.ok t) :
    ∀ c, Event.setColorSpawn c ∈ (cycle e1).snd ↔ Event.setColorSpawn c ∈ (cycle e2).snd := by
  intro c
  cases hc : color t with
  | error e =>
    simp [cycle, h1, h2, ht1, ht2, hc]
  | ok c0 =>
    cases hs1 : e1.setRun <;> cases hs2 : e2.setRun <;>
      simp [cycle, h1, h2, ht1, ht2, hc, hs1, hs2]

/-- C5 witness: two different documents and set-color outcomes, same
extracted temperature, same set-color attempt. -/
theorem C5_decision_pure_witness :
    Event.setColorSpawn "0080ff" ∈
        (cycle { query := QueryResult.parsed goodDoc, setRun := RunResult.exited 0 }).snd ↔
      Event.setColorSpawn "0080ff" ∈
        (cycle { query := QueryResult.parsed otherDoc, setRun := RunResult.notFound }).snd :=
  C5_decision_pure _ _ goodDoc otherDoc (Json.num (PyFloat.fin 35)) rfl rfl rfl rfl "0080ff"

/-- C6: the temperature used is exactly `blocks[0].status[0].value` — on
any document of that shape the extraction returns precisely that `value`
field — and no other part of the document affects the cycle: two cycles
whose documents extract the same value and whose set-color outcomes agree
are indistinguishable (same exception outcome, same trace). -/
theorem C6_first_value_only (e1 e2 : CycleEnv) (d1 d2 v : Json) :
    (∀ (entry block : List (String × Json)) (more blocks : List Json),
      entry.lookup "value" = some v →
      block.lookup "status" = some (Json.arr (Json.obj entry :: more)) →
      liquid_temp (Json.arr (Json.obj block :: blocks)) = Except.ok v) ∧
    (e1.query = QueryResult.parsed d1 → e2.query = QueryResult.parsed d2 →
      liquid_temp d1 = Except.ok v → liquid_temp d2 = Except.ok v →
      e1.setRun = e2.setRun → cycle e1 = cycle e2) := by
  constructor
  · intro entry block more blocks hval hstat
    simp [liquid_temp, pySubscriptNat, pySubscriptStr, okBind, errorBind, hval, hstat]
  · intro h1 h2 ht1 ht2 hs
    cases hc : color v with
    | error e => simp [cycle, h1, h2, ht1, ht2, hc]
    | ok c0 => simp [cycle, h1, h2, ht1, ht2, hc, hs]

/-- C6 witness: `goodDoc` and `otherDoc` share only the first value; their
cycles coincide. -/
theorem C6_first_value_only_witness :
    cycle { query := QueryResult.parsed goodDoc, setRun := RunResult.exited 0 } =
      cycle { query := QueryResult.parsed otherDoc, setRun := RunResult.exited 0 } :=
  (C6_first_value_only _ _ goodDoc otherDoc (Json.num (PyFloat.fin 35))).2 rfl rfl rfl rfl rfl

/-- C7: a successful cycle's trace is exactly query spawn, then the
set-color spawn (always, with some color), then the 60-second sleep; the
next cycle's events follow only after that sleep. -/
theorem C7_successful_cycle_shape (env : CycleEnv)
    (h : (cycle env).fst = Except.ok ()) :
    ∃ c, (cycle env).snd = [Event.querySpawn, Event.setColorSpawn c, Event.sleep 60] ∧
      ∀ rest, (loop (env :: rest)).snd =
        [Event.querySpawn, Event.setColorSpawn c, Event.sleep 60] ++ (loop rest).snd := by
  obtain ⟨q, s⟩ := env
  cases q with
  | execError => simp [cycle] at h
  | nonzeroExit => simp [cycle] at h
  | unparseable => simp [cycle] at h
  | parsed st =>
    cases ht : liquid_temp st with
    | error e => simp [cycle, ht] at h
    | ok t =>
      cases hc : color t with
      | error e => simp [cycle, ht, hc] at h
      | ok c =>
        cases s with
        | notFound => simp [cycle, ht, hc] at h
        | exited n =>
          have hcy : cycle { query := QueryResult.parsed st, setRun := RunResult.exited n } =
              (Except.ok (), [Event.querySpawn, Event.setColorSpawn c, Event.sleep 60]) := by
            simp [cycle, ht, hc]
          exact ⟨c, by simp [hcy], fun rest => by simp [loop, hcy]⟩

/-- C7 witness: the successful cycle on `goodDoc`. -/
theorem C7_successful_cycle_shape_witness :
    ∃ c, (cycle { query := QueryResult.parsed goodDoc, setRun := RunResult.exited 0 }).snd =
        [Event.querySpawn, Event.setColorSpawn c, Event.sleep 60] ∧
      ∀ rest,
        (loop ({ query := QueryResult.parsed goodDoc, setRun := RunResult.exited 0 } :: rest)).snd =
          [Event.querySpawn, Event.setColorSpawn c, Event.sleep 60] ++ (loop rest).snd :=
  C7_successful_cycle_shape _ rfl

/-- C8: any color ever passed to the set-color command is one of the two
fixed constants, a six-character lowercase-hex string. -/
theorem C8_color_range (env : CycleEnv) (c : String)
    (h : Event.setColorSpawn c ∈ (cycle env).snd) :
    (c = "0080ff" ∨ c = "ff0000") ∧ c.length = 6 ∧ c.data.all isHexChar = true := by
  obtain ⟨q, s⟩ := env
  cases q with
  | execError => simp [cycle] at h
  | nonzeroExit => simp [cycle] at h
  | unparseable => simp [cycle] at h
  | parsed st =>
    cases ht : liquid_temp st with
    | error e => simp [cycle, ht] at h
    | ok t =>
      cases hc : color t with
      | error e => simp [cycle, ht, hc] at h
      | ok c0 =>
        have hcc : c = c0 := by
          cases s with
          | notFound => simpa [cycle, ht, hc] using h
          | exited n => simpa [cycle, ht, hc] using h
        subst hcc
        rcases color_ok_cases t c hc with h0 | h0 <;> subst h0
        · exact ⟨Or.inl rfl, rfl, by decide⟩
        · exact ⟨Or.inr rfl, rfl, by decide⟩

/-- C8 witness: the cycle on `goodDoc` spawns set-color with `0080ff`. -/
theorem C8_color_range_witness :
    ("0080ff" = "0080ff" ∨ "0080ff" = "ff0000") ∧
      String.length "0080ff" = 6 ∧ List.all (String.data "0080ff") isHexChar = true :=
  C8_color_range { query := QueryResult.parsed goodDoc, setRun := RunResult.exited 0 }
    "0080ff" (by decide)

/-- C10 counterexample: the extracted value is the JSON boolean `true` —
present but not a number — yet the comparison succeeds (Python booleans
are integers, `True < 40` is `True`), a color is derived, set-color is
invoked with `0080ff` and the cycle completes normally. -/
theorem C10_counterexample :
    liquid_temp boolDoc = Except.ok (Json.bool true) ∧
    (Json.bool true).isNum = false ∧
    (cycle { query := QueryResult.parsed boolDoc, setRun := RunResult.exited 0 }).fst =
      Except.ok () ∧
    Event.setColorSpawn "0080ff" ∈
      (cycle { query := QueryResult.parsed boolDoc, setRun := RunResult.exited 0 }).snd :=
  ⟨rfl, rfl, rfl, by decide⟩

/-- C10 amended: if the extracted value is a JSON string, `null`, array or
object, the comparison raises `TypeError` and the set-color command is not
invoked that cycle; a JSON boolean, however, is compared as an integer
(`False` as 0, `True` as 1) and does yield a color. -/
theorem C10_non_numeric_value (env : CycleEnv) (doc v : Json)
    (hq : env.query = QueryResult.parsed doc)
    (hv : liquid_temp doc = Except.ok v)
    (hn : v.comparableToNum = false) :
    (cycle env).fst = Except.error PyErr.typeError ∧
    ∀ c, Event.setColorSpawn c ∉ (cycle env).snd := by
  have hcol : color v = Except.error PyErr.typeError := by
    cases v with
    | null => rfl
    | bool b => simp [Json.comparableToNum] at hn
    | num x => simp [Json.comparableToNum] at hn
    | str s => rfl
    | arr xs => rfl
    | obj kvs => rfl
  simp [cycle, hq, hv, hcol]

/-- C10 amended witness: a `null` value raises `TypeError`. -/
theorem C10_non_numeric_value_witness :
    (cycle { query := QueryResult.parsed nullDoc, setRun := RunResult.exited 0 }).fst =
      Except.error PyErr.typeError :=
  (C10_non_numeric_value _ nullDoc Json.null rfl rfl rfl).1

end DynamicLed
